import Mathlib

/-!
Shallow embedding of the peermetals video-reel pipeline:
  src/videoreels/src/utils/generateDescription.js
  src/videoreels/webhook/route.js
  src/videoreels/api/render-video.js
JS strings are modelled as Lean `String` (lengths counted in characters);
`undefined`/missing JS values are `Option.none`; JS truthiness of strings
(`""` is falsy) and of numbers (`0` is falsy) is modelled explicitly.
External collaborators (data store, text-generation service, storage,
renderer) are modelled by their outcomes, passed in as environment records.
-/

/-- Length of a JS string (`s.length`). -/
def strLen (s : String) : Nat := s.data.length

/-- JS `s.substring(0, n)` for `n ≤ s.length` (also JS `slice`): first `n` characters. -/
def strTake (s : String) (n : Nat) : String := ⟨s.data.take n⟩

/-- JS `s.includes(pat)`: substring containment. -/
def strIncludes (s pat : String) : Bool := decide (pat.data <:+: s.data)

/-- JS `s.toLowerCase()` (ASCII-faithful model). -/
def toLowerStr (s : String) : String := ⟨s.data.map Char.toLower⟩

/-- JS `s.trim()`: strip leading and trailing whitespace. -/
def trimStr (s : String) : String :=
  ⟨((s.data.dropWhile Char.isWhitespace).reverse.dropWhile Char.isWhitespace).reverse⟩

/-- JS truthiness of a possibly-undefined string: `undefined` and `""` are falsy. -/
def truthyS : Option String → Bool
  | some s => s != ""
  | none => false

/-- JS `a || b` on possibly-undefined strings. -/
def jsOr (a b : Option String) : Option String :=
  match a with
  | some s => if s = "" then b else some s
  | none => b

/-- JS `a || d` where the default `d` is a string literal. -/
def getOr (a : Option String) (d : String) : String :=
  match a with
  | some s => if s = "" then d else s
  | none => d

/-- JS template interpolation of a possibly-undefined string: `undefined` prints as "undefined". -/
def jsToStr : Option String → String
  | some s => s
  | none => "undefined"

/-- State machine for the JS regex replace `s.replace(/<[^>]*>/g, '')`:
in mode `false` a `<` that is followed by a later `>` opens a tag (skipped
up to and including the closing `>`, handled by mode `true`); a `<` with no
later `>` never matches and is kept verbatim, as is any bare `>`. -/
def stripTagsGo : Bool → List Char → List Char
  | _, [] => []
  | false, c :: cs =>
      if c = '<' ∧ '>' ∈ cs then stripTagsGo true cs
      else c :: stripTagsGo false cs
  | true, c :: cs =>
      if c = '>' then stripTagsGo false cs
      else stripTagsGo true cs

/-- JS `s.replace(/<[^>]*>/g, '')`: remove markup tags. -/
def stripHtml (s : String) : String := ⟨stripTagsGo false s.data⟩

/-- Truncation used throughout the source: `if (s.length > budget) s = s.substring(0, budget - 3) + '...'`
(the source writes the literals, e.g. 150/147, 120/117, 80/77). -/
def clipTo (budget : Nat) (s : String) : String :=
  if strLen s > budget then strTake s (budget - 3) ++ "..." else s

/-! ## generateDescription.js -/

/-- Specifications sub-object handed to the description generator
(render-video.js lines 83-89 build it from the listing row). -/
structure GenSpecs where
  category : Option String := none
  condition : Option String := none
  weight : Option Nat := none
  purity : Option String := none
  year : Option String := none

/-- Listing-shaped argument of the description generator functions. -/
structure GenListing where
  title : Option String := none
  description : Option String := none
  specifications : Option GenSpecs := none

/-- Source line 77: `const category = specifications?.category || 'precious metal';`. -/
def fallbackCategory (l : GenListing) : String :=
  getOr (l.specifications.bind GenSpecs.category) "precious metal"

/-- Source line 78: `const condition = specifications?.condition || '';`. -/
def fallbackCondition (l : GenListing) : String :=
  getOr (l.specifications.bind GenSpecs.condition) ""

/-- Source line 79: `const purity = specifications?.purity || '';`. -/
def fallbackPurity (l : GenListing) : String :=
  getOr (l.specifications.bind GenSpecs.purity) ""

/-- Source line 80: `const year = specifications?.year || '';`. -/
def fallbackYear (l : GenListing) : String :=
  getOr (l.specifications.bind GenSpecs.year) ""

/-- Template of the `purity && year` branch (generateDescription.js line 86). -/
def purityYearTemplate (purity year category condition : String) : String :=
  purity ++ " purity " ++ toLowerStr category ++ " from " ++ year ++ ". " ++
    (if condition ≠ "" then condition ++ " condition." else "Exceptional quality.")

/-- Template of the purity-only branch (line 88). -/
def purityOnlyTemplate (purity category condition : String) : String :=
  "Premium " ++ purity ++ " purity " ++ toLowerStr category ++ ". " ++
    (if condition ≠ "" then condition ++ " condition." else "Investment grade.")

/-- Template of the year-only branch (line 90). -/
def yearOnlyTemplate (year category condition : String) : String :=
  "Collectible " ++ toLowerStr category ++ " from " ++ year ++ ". " ++
    (if condition ≠ "" then condition ++ " condition." else "Excellent specimen.")

/-- Template of the neither branch (line 92). -/
def neitherTemplate (category condition : String) : String :=
  "Beautiful " ++ toLowerStr category ++ " piece. " ++
    (if condition ≠ "" then condition ++ " condition." else "Quality guaranteed.")

/-- Branch selection of `generateFallbackDescription` (lines 85-93), before truncation. -/
def fallbackComposed (l : GenListing) : String :=
  if fallbackPurity l ≠ "" ∧ fallbackYear l ≠ "" then
    purityYearTemplate (fallbackPurity l) (fallbackYear l) (fallbackCategory l) (fallbackCondition l)
  else if fallbackPurity l ≠ "" then
    purityOnlyTemplate (fallbackPurity l) (fallbackCategory l) (fallbackCondition l)
  else if fallbackYear l ≠ "" then
    yearOnlyTemplate (fallbackYear l) (fallbackCategory l) (fallbackCondition l)
  else
    neitherTemplate (fallbackCategory l) (fallbackCondition l)

/-- generateDescription.js `generateFallbackDescription` (lines 73-101):
compose from the populated fields, then truncate at 120 characters
(`substring(0, 117) + '...'`). -/
def generateFallbackDescription (l : GenListing) : String :=
  clipTo 120 (fallbackComposed l)

/-- Whether a character is one of the quote characters of the regex class `["']`. -/
def isQuote (c : Char) : Bool := c == '"' || c == '\''

/-- JS `s.replace(/^["']|["']$/g, '')` (generateDescription.js line 144):
removes one leading quote character if present, and one trailing quote
character if present — each independently, not only as a matched pair. -/
def stripQuotes (s : String) : String :=
  let l₁ := match s.data with
    | c :: rest => if isQuote c then rest else s.data
    | [] => []
  let l₂ := match l₁.reverse with
    | c :: rest => if isQuote c then rest.reverse else l₁
    | [] => []
  ⟨l₂⟩

/-- generateDescription.js `generateFallbackDetailed` (lines 158-161). -/
def generateFallbackDetailed (l : GenListing) : String :=
  "Discover this exceptional " ++
    toLowerStr (getOr (l.specifications.bind GenSpecs.category) "precious metal") ++ " piece."

/-- generateDescription.js `generateDetailedDescription` (lines 108-156).
`geminiKey` models `process.env.NEXT_PUBLIC_GEMINI_API_KEY`; `service`
models the outcome of the text-generation call (`none` = the call threw,
caught by the surrounding try; `some t` = the returned completion text).
On the service path: trim, strip quotes, truncate at 80 (`substring(0,77)+'...'`). -/
def generateDetailedDescription (geminiKey : Option String) (service : Option String)
    (l : GenListing) : String :=
  if truthyS geminiKey = false then generateFallbackDetailed l
  else
    match service with
    | none => generateFallbackDetailed l
    | some t => clipTo 80 (stripQuotes (trimStr t))

/-- Modelled from the spec's words, for comparison with the source's
`stripQuotes` (claim C5): strip a single pair of leading/trailing quote
characters only when the service wrapped its answer in them. -/
def stripPairIfWrapped (s : String) : String :=
  match s.data with
  | [] => s
  | c :: rest =>
    match rest.reverse with
    | [] => s
    | d :: mid => if isQuote c ∧ isQuote d then ⟨mid.reverse⟩ else s

/-- Modelled from the spec's words (claim C5): the punchy output as the spec
describes it — pair-only quote stripping, then the 80-character truncation. -/
def claimedPunchyOutput (t : String) : String :=
  clipTo 80 (stripPairIfWrapped (trimStr t))

/-! ## webhook/route.js -/

/-- Listing row as both entry points read it (fields of the `listings` table
that the pipeline touches). Every field may be absent. -/
structure Listing where
  id : Option String := none
  title : Option String := none
  description : Option String := none
  images : Option (List String) := none
  user_id : Option String := none
  status : Option String := none
  tier1_category : Option String := none
  tier2_category : Option String := none
  condition : Option String := none
  weight : Option Nat := none
  purity : Option String := none
  year : Option String := none

/-- Seller profile row (`profiles` table selection). -/
structure SellerProfile where
  username : Option String := none
  full_name : Option String := none
  avatar_url : Option String := none
  reputation : Option Nat := none
  is_verified : Option Bool := none

/-- Webhook envelope `{type, table, record}`. The JS key `type` is spelled
`ttype` here. -/
structure WebhookBody where
  ttype : Option String := none
  table : Option String := none
  record : Option Listing := none

/-- webhook/route.js `validateWebhookPayload` (lines 23-63): the thrown
error message, or `()` for a valid payload. Checks run in source order;
`!x` on a string field is JS falsiness (`undefined` or `""`), on the
record it is absence. -/
def validateWebhookPayload (body : WebhookBody) : Except String Unit :=
  if ¬ truthyS body.ttype = true ∨ body.ttype ≠ some "INSERT" then
    .error "Invalid webhook type - only INSERT events are supported"
  else if ¬ truthyS body.table = true ∨ body.table ≠ some "listings" then
    .error "Invalid table - only listings table is supported"
  else
    match body.record with
    | none => .error "Missing record data in webhook payload"
    | some record =>
      if record.status ≠ some "active" then
        .error ("Listing status '" ++ jsToStr record.status ++
          "' not active - skipping video generation")
      else if truthyS record.id = false then .error "Missing listing ID"
      else if truthyS record.title = false then .error "Missing listing title"
      else if truthyS record.user_id = false then .error "Missing user ID"
      else .ok ()

/-- webhook/route.js `generateListingDescription` (lines 66-83): never calls
the text-generation service; strips markup from a present description of
length > 10 and truncates at 150 (`substring(0,147)+'...'`), otherwise a
fixed fallback sentence. (The catch branch at line 81 is unreachable in
this model: no operation in the body throws.) -/
def generateListingDescription (listing : Listing) : String :=
  if truthyS listing.description = true ∧ strLen (listing.description.getD "") > 10 then
    clipTo 150 (stripHtml (listing.description.getD ""))
  else
    "Discover this exquisite " ++ getOr listing.tier1_category "precious metal" ++
      " item. Quality guaranteed."

/-- Weight formatting shared by both entry points
(webhook/route.js line 98, render-video.js line 100):
`listing.weight ? `${listing.weight} oz` : undefined` — a numeric 0 is
JS-falsy, so it maps to `undefined` just like an absent weight. -/
def formatWeight : Option Nat → Option String
  | some v => if v = 0 then none else some (toString v ++ " oz")
  | none => none

/-- Specifications bag of the video input properties (webhook/route.js
lines 95-101, render-video.js lines 97-103 — identical construction). -/
structure SpecsBag where
  category : Option String := none
  condition : Option String := none
  weight : Option String := none
  purity : Option String := none
  year : Option String := none

/-- Shared assembly of the specifications bag from a listing row. -/
def assembleSpecs (listing : Listing) : SpecsBag :=
  { category := jsOr listing.tier1_category listing.tier2_category
    condition := listing.condition
    weight := formatWeight listing.weight
    purity := listing.purity
    year := listing.year }

/-- Video input property bag consumed by the composition template. -/
structure VideoInputProps where
  listingTitle : Option String := none
  listingDescription : String := ""
  images : List String := []
  specifications : SpecsBag := {}
  sellerName : Option String := none
  logoUrl : String := ""

/-- Logo URL resolution of the webhook path (webhook/route.js lines 103-105):
`process.env.NEXT_PUBLIC_APP_URL ? `${..._APP_URL}/peermetals.png` : 'https://peermetals.com/peermetals.png'`. -/
def logoUrlFromEnv (appUrl : Option String) : String :=
  if truthyS appUrl = true then appUrl.getD "" ++ "/peermetals.png"
  else "https://peermetals.com/peermetals.png"

/-- Video data bag built by webhook/route.js `generateVideoReel`
(lines 91-106). `appUrl` models `process.env.NEXT_PUBLIC_APP_URL`. -/
def webhookVideoData (appUrl : Option String) (listing : Listing)
    (seller : SellerProfile) : VideoInputProps :=
  { listingTitle := some (getOr listing.title "New Listing")
    listingDescription := generateListingDescription listing
    images := listing.images.getD []
    specifications := assembleSpecs listing
    sellerName := jsOr seller.full_name seller.username
    logoUrl := logoUrlFromEnv appUrl }

/-- Return value of webhook/route.js `generateVideoReel` (lines 128-133). -/
structure VideoReelResult where
  success : Bool
  videoPath : String
  videoData : VideoInputProps
  message : String

/-- webhook/route.js `generateVideoReel` (lines 86-142): builds the video
data bag and a storage path; performs no rendering. `now` models
`Date.now()`. The catch branch (return null) is unreachable in this model:
nothing in the body throws. -/
def generateVideoReel (appUrl : Option String) (now : Nat) (listing : Listing)
    (seller : SellerProfile) : Option VideoReelResult :=
  some { success := true
         videoPath := "video-reels/listing-" ++ jsToStr listing.id ++ "-" ++ toString now ++ ".mp4"
         videoData := webhookVideoData appUrl listing seller
         message := "Video generation queued successfully" }

/-- JSON response of the webhook endpoint; absent keys are `none`. -/
structure WebhookResponse where
  status : Nat := 200
  success : Option Bool := none
  message : Option String := none
  reason : Option String := none
  error : Option String := none
  listingId : Option String := none
  videoPath : Option String := none
  videoData : Option VideoInputProps := none

/-- Catch clause of webhook/route.js `POST` (lines 193-214): the three skip
phrases yield a 200 success-with-reason; anything else is 400 when the
message contains "Missing", 500 otherwise. -/
def webhookCatch (e : String) : WebhookResponse :=
  if strIncludes e "not active" || strIncludes e "only INSERT events" ||
      strIncludes e "only listings table" then
    { status := 200, success := some true, message := some "Webhook skipped", reason := some e }
  else
    { status := if strIncludes e "Missing" then 400 else 500
      success := some false, error := some e }

/-- Fallback seller profile of the webhook path (webhook/route.js lines 167-173). -/
def fallbackProfileWebhook : SellerProfile :=
  { username := some "peermetals_seller", full_name := some "PeerMetals Seller"
    avatar_url := none, reputation := some 0, is_verified := some false }

/-- webhook/route.js `POST` (lines 144-215). `profileData`/`profileError`
model the outcome of the seller-profile lookup; the second component of
the result counts calls made to external services (the profile fetch is
the only one — validation runs before any such call). -/
def webhookPOST (appUrl : Option String) (profileData : Option SellerProfile)
    (profileError : Bool) (now : Nat) (body : WebhookBody) : WebhookResponse × Nat :=
  match validateWebhookPayload body with
  | .error e => (webhookCatch e, 0)
  | .ok _ =>
    let listing := body.record.getD {}
    let seller := if profileError ∨ profileData.isNone then fallbackProfileWebhook
                  else profileData.getD fallbackProfileWebhook
    match generateVideoReel appUrl now listing seller with
    | none => (webhookCatch "Failed to generate video reel", 1)
    | some videoResult =>
      ({ status := 200, success := some true
         message := some "Video reel generation queued successfully"
         listingId := listing.id
         videoPath := some videoResult.videoPath
         videoData := some videoResult.videoData }, 1)

/-! ## api/render-video.js -/

/-- Incoming request of the render endpoint. -/
structure RenderReq where
  method : String := "POST"
  listingId : Option String := none
  listingData : Option Listing := none

/-- Outcomes of every external interaction the render handler performs,
plus the relevant configuration. `appUrl` (NEXT_PUBLIC_APP_URL) is part of
the process environment but is never read by render-video.js. Each
`...Error` field is `some message` when that step fails (throws or returns
an error object) and `none` when it succeeds; `elapsed` is the formatted
wall-clock time string. -/
structure RenderEnv where
  geminiKey : Option String := none
  serviceText : Option String := none
  appUrl : Option String := none
  fetchError : Option String := none
  fetchData : Option Listing := none
  profileData : Option SellerProfile := none
  bundleError : Option String := none
  composeError : Option String := none
  renderError : Option String := none
  uploadError : Option String := none
  updateError : Option String := none
  publicUrl : String := ""
  nodeEnv : Option String := none
  stackTrace : String := ""
  elapsed : String := ""

/-- JSON response of the render endpoint, together with the number of
`fs.unlinkSync` calls performed on the temporary file (`unlinkCount`).
Absent JSON keys are `none`. -/
structure RenderResult where
  status : Nat := 200
  success : Option Bool := none
  error : Option String := none
  videoUrl : Option String := none
  listingId : Option String := none
  renderTime : Option String := none
  message : Option String := none
  stack : Option String := none
  unlinkCount : Nat := 0

/-- Listing-shaped argument render-video.js passes to
`generateDetailedDescription` (lines 80-90). -/
def listingToGenInput (listing : Listing) : GenListing :=
  { title := listing.title
    description := listing.description
    specifications := some
      { category := jsOr listing.tier1_category listing.tier2_category
        condition := listing.condition
        weight := listing.weight
        purity := listing.purity
        year := listing.year } }

/-- Video input props assembled by render-video.js (lines 93-106). The logo
URL is the fixed absolute fallback — this file never consults
NEXT_PUBLIC_APP_URL. -/
def renderVideoInputProps (listing : Listing) (seller : SellerProfile)
    (aiDescription : String) : VideoInputProps :=
  { listingTitle := listing.title
    listingDescription := aiDescription
    images := listing.images.getD []
    specifications := assembleSpecs listing
    sellerName := jsOr seller.full_name seller.username
    logoUrl := "https://peermetals.com/peermetals.png" }

/-- Fallback seller profile of the render endpoint (render-video.js lines 73-76). -/
def fallbackProfileRender : SellerProfile :=
  { username := some "peermetals_seller", full_name := some "PeerMetals Seller" }

/-- Body of the `try` block of the render handler (render-video.js
lines 38-199), after the method and missing-parameter early returns:
fetch the listing when only an id was given, fetch the seller profile,
generate the description, assemble the props, bundle, select composition,
render, upload, get the public URL, best-effort update of the listing
row (an update error is only logged), unlink the temp file, and respond.
A `.error` is a thrown exception reaching the catch clause. -/
def renderPipeline (req : RenderReq) (env : RenderEnv) : Except String RenderResult :=
  let listingE : Except String Listing :=
    if truthyS req.listingId = true ∧ req.listingData.isNone then
      if env.fetchError.isSome ∨ env.fetchData.isNone then
        .error ("Failed to fetch listing: " ++ env.fetchError.getD "undefined")
      else .ok (env.fetchData.getD {})
    else .ok (req.listingData.getD {})
  match listingE with
  | .error e => .error e
  | .ok listing =>
    let seller := env.profileData.getD fallbackProfileRender
    let aiDescription := generateDetailedDescription env.geminiKey env.serviceText
      (listingToGenInput listing)
    let _props := renderVideoInputProps listing seller aiDescription
    match env.bundleError with
    | some m => .error m
    | none =>
    match env.composeError with
    | some m => .error m
    | none =>
    match env.renderError with
    | some m => .error m
    | none =>
    match env.uploadError with
    | some m => .error ("Upload failed: " ++ m)
    | none =>
      .ok { status := 200, success := some true
            videoUrl := some env.publicUrl
            listingId := listing.id
            renderTime := some env.elapsed
            message := some "Video rendered and uploaded successfully"
            unlinkCount := 1 }

/-- render-video.js default handler (lines 28-212): non-POST methods get a
405 `{error}`; a request with neither listingId nor listingData gets a 400
`{error}` (JS: `!listingId && !listingData`, so an empty-string id counts
as missing); otherwise the pipeline runs and a thrown error is converted
by the catch clause into a 500 with the message, the elapsed time, and a
stack trace only in development — without reaching the unlink call. -/
def renderHandler (req : RenderReq) (env : RenderEnv) : RenderResult :=
  if req.method ≠ "POST" then
    { status := 405, error := some "Method not allowed" }
  else if truthyS req.listingId = false ∧ req.listingData.isNone then
    { status := 400, error := some "Missing required parameter: listingId or listingData" }
  else
    match renderPipeline req env with
    | .ok r => r
    | .error e =>
      { status := 500, success := some false, error := some e
        stack := if env.nodeEnv = some "development" then some env.stackTrace else none
        renderTime := some env.elapsed
        unlinkCount := 0 }

/-! ## Helper lemmas -/

theorem strData_append (a b : String) : (a ++ b).data = a.data ++ b.data := by
  cases a; cases b; rfl

theorem strLen_append (a b : String) : strLen (a ++ b) = strLen a + strLen b := by
  simp [strLen, strData_append]

theorem strLen_take (s : String) (n : Nat) : strLen (strTake s n) = min n (strLen s) := by
  simp [strLen, strTake]

theorem strLen_clipTo {b : Nat} (hb : 3 ≤ b) (s : String) : strLen (clipTo b s) ≤ b := by
  unfold clipTo
  split
  · rw [strLen_append, strLen_take]
    have h3 : strLen "..." = 3 := by decide
    omega
  · omega

theorem strIncludes_append_right (a b pat : String) (h : strIncludes b pat = true) :
    strIncludes (a ++ b) pat = true := by
  unfold strIncludes at *
  obtain ⟨s, t, hst⟩ := of_decide_eq_true h
  apply decide_eq_true
  exact ⟨a.data ++ s, t, by rw [strData_append, ← hst]; simp⟩

/-! ## Claims -/

/-- Claim C2: for every listing the fallback description generator selects
its template by the fixed priority order purity+year > purity-only >
year-only > neither; with purity and year present the result is the
purity+year template (truncated at 120) and has length ≤ 120; with no
specification fields populated it is the non-empty neither-branch sentence;
any composed text exceeding 120 characters is truncated to 117 characters
plus an ellipsis; the result never exceeds 120 characters. -/
theorem claim_C2_fallback_priority (l : GenListing) :
    (fallbackPurity l ≠ "" → fallbackYear l ≠ "" →
      generateFallbackDescription l =
        clipTo 120 (purityYearTemplate (fallbackPurity l) (fallbackYear l)
          (fallbackCategory l) (fallbackCondition l)) ∧
      strLen (generateFallbackDescription l) ≤ 120) ∧
    (fallbackPurity l ≠ "" → fallbackYear l = "" →
      generateFallbackDescription l =
        clipTo 120 (purityOnlyTemplate (fallbackPurity l) (fallbackCategory l)
          (fallbackCondition l))) ∧
    (fallbackPurity l = "" → fallbackYear l ≠ "" →
      generateFallbackDescription l =
        clipTo 120 (yearOnlyTemplate (fallbackYear l) (fallbackCategory l)
          (fallbackCondition l))) ∧
    (fallbackPurity l = "" → fallbackYear l = "" → fallbackCondition l = "" →
      fallbackCategory l = "precious metal" →
      generateFallbackDescription l = "Beautiful precious metal piece. Quality guaranteed." ∧
      generateFallbackDescription l ≠ "") ∧
    (strLen (fallbackComposed l) > 120 →
      generateFallbackDescription l = strTake (fallbackComposed l) 117 ++ "...") ∧
    strLen (generateFallbackDescription l) ≤ 120 := by
  refine ⟨fun hp hy => ?_, fun hp hy => ?_, fun hp hy => ?_,
    fun hp hy hc hcat => ?_, fun h => ?_, strLen_clipTo (by omega) _⟩
  · unfold generateFallbackDescription fallbackComposed
    rw [if_pos ⟨hp, hy⟩]
    exact ⟨rfl, strLen_clipTo (by omega) _⟩
  · unfold generateFallbackDescription fallbackComposed
    rw [if_neg (by simp [hy]), if_pos hp]
  · unfold generateFallbackDescription fallbackComposed
    rw [if_neg (by simp [hp]), if_neg (by simp [hp]), if_pos hy]
  · have heq : generateFallbackDescription l =
        clipTo 120 (neitherTemplate "precious metal" "") := by
      unfold generateFallbackDescription fallbackComposed
      rw [if_neg (by simp [hp]), if_neg (by simp [hp]), if_neg (by simp [hy]), hcat, hc]
    rw [heq]
    exact ⟨by decide, by decide⟩
  · unfold generateFallbackDescription clipTo
    rw [if_pos h]

/-- Claim C2 witness: a concrete listing with purity ".999" and year "2024". -/
def c2Listing : GenListing :=
  { specifications := some
      { purity := some ".999", year := some "2024"
        category := some "Gold", condition := some "Mint" } }

/-- Claim C2 witness theorem. -/
theorem claim_C2_witness :
    fallbackPurity c2Listing ≠ "" ∧ fallbackYear c2Listing ≠ "" ∧
    strLen (generateFallbackDescription c2Listing) ≤ 120 ∧
    generateFallbackDescription c2Listing =
      clipTo 120 (purityYearTemplate (fallbackPurity c2Listing) (fallbackYear c2Listing)
        (fallbackCategory c2Listing) (fallbackCondition c2Listing)) :=
  ⟨by decide, by decide,
   ((claim_C2_fallback_priority c2Listing).1 (by decide) (by decide)).2,
   ((claim_C2_fallback_priority c2Listing).1 (by decide) (by decide)).1⟩

/-- Claim C5 counterexample: the service answer `"Premium gold coin` starts
with a quote character but is not wrapped in a pair; the code strips the
lone leading quote anyway, so the output differs from the spec-described
pair-only stripping. -/
theorem claim_C5_counterexample :
    generateDetailedDescription (some "key") (some "\"Premium gold coin") {} =
      "Premium gold coin" ∧
    claimedPunchyOutput "\"Premium gold coin" = "\"Premium gold coin" ∧
    generateDetailedDescription (some "key") (some "\"Premium gold coin") {} ≠
      claimedPunchyOutput "\"Premium gold coin" :=
  ⟨by decide, by decide, by decide⟩

/-- Claim C5 (amended): for every listing and every text returned by the
service, the punchy generator's output equals the text after trimming,
stripping one leading and one trailing quote character independently
(each whenever present, even unpaired), and truncating to 77 characters
plus an ellipsis when the stripped text exceeds 80 characters; the output
length is always ≤ 80. -/
theorem claim_C5_punchy_length (k t : String) (l : GenListing) (hk : k ≠ "") :
    generateDetailedDescription (some k) (some t) l = clipTo 80 (stripQuotes (trimStr t)) ∧
    strLen (generateDetailedDescription (some k) (some t) l) ≤ 80 := by
  have hkey : truthyS (some k) = true := by simp [truthyS, bne_iff_ne]; exact hk
  have heq : generateDetailedDescription (some k) (some t) l =
      clipTo 80 (stripQuotes (trimStr t)) := by
    unfold generateDetailedDescription
    rw [if_neg (by rw [hkey]; simp)]
  exact ⟨heq, heq ▸ strLen_clipTo (by omega) _⟩

/-- Claim C5 witness theorem. -/
theorem claim_C5_witness :
    ("k" : String) ≠ "" ∧
    generateDetailedDescription (some "k") (some "  \"Shiny .999 gold!\"  ") {} =
      clipTo 80 (stripQuotes (trimStr "  \"Shiny .999 gold!\"  ")) ∧
    strLen (generateDetailedDescription (some "k") (some "  \"Shiny .999 gold!\"  ") {}) ≤ 80 :=
  ⟨by decide,
   (claim_C5_punchy_length "k" "  \"Shiny .999 gold!\"  " {} (by decide)).1,
   (claim_C5_punchy_length "k" "  \"Shiny .999 gold!\"  " {} (by decide)).2⟩

/-- Claim C9: for every error message reaching the webhook catch clause that
contains none of the three skip phrases, the response status is 400 exactly
when the message contains "Missing" and 500 otherwise, with success false. -/
theorem claim_C9_webhook_catch (e : String)
    (h1 : strIncludes e "not active" = false)
    (h2 : strIncludes e "only INSERT events" = false)
    (h3 : strIncludes e "only listings table" = false) :
    ((webhookCatch e).status = 400 ↔ strIncludes e "Missing" = true) ∧
    (strIncludes e "Missing" = false → (webhookCatch e).status = 500) ∧
    (webhookCatch e).success = some false := by
  have hcond : (strIncludes e "not active" || strIncludes e "only INSERT events" ||
      strIncludes e "only listings table") = false := by
    rw [h1, h2, h3]; rfl
  unfold webhookCatch
  rw [hcond]
  cases hm : strIncludes e "Missing" <;> simp [hm]

/-- Claim C9 witness theorem: a downstream failure message that merely
contains "Missing" is classified as a 400 client error. -/
theorem claim_C9_witness :
    ((webhookCatch "storage exploded: Missing permission on bucket").status = 400 ↔
      strIncludes "storage exploded: Missing permission on bucket" "Missing" = true) ∧
    (strIncludes "storage exploded: Missing permission on bucket" "Missing" = false →
      (webhookCatch "storage exploded: Missing permission on bucket").status = 500) ∧
    (webhookCatch "storage exploded: Missing permission on bucket").success = some false :=
  claim_C9_webhook_catch "storage exploded: Missing permission on bucket"
    (by decide) (by decide) (by decide)

set_option maxRecDepth 4000 in
/-- Claim C10 counterexample: a description of length 14 > 10 consisting
only of markup strips to the empty string, so the builder returns "" (not
non-empty); and a 101-character category makes the fallback sentence
151 characters long (> 150). -/
theorem claim_C10_counterexample :
    generateListingDescription { description := some "<a></a><b></b>" } = "" ∧
    strLen ("<a></a><b></b>" : String) > 10 ∧
    strLen (generateListingDescription
      { tier1_category := some ⟨List.replicate 101 'x'⟩ }) = 151 :=
  ⟨by decide, by decide, by decide⟩

/-- Claim C10 (amended): the webhook description builder is a pure function
of the listing (it never calls the text-generation service and never
throws); when the description is present with length > 10 it returns the
markup-stripped text truncated at 150 characters (147 plus an ellipsis
when longer), which has length ≤ 150 but is empty when the stripped text
is empty; otherwise it returns the fixed fallback sentence around the
category, which is non-empty but whose length is 50 plus the category
length and so can exceed 150. -/
theorem claim_C10_webhook_description (l : Listing) :
    ((truthyS l.description = true ∧ strLen (l.description.getD "") > 10) →
      generateListingDescription l = clipTo 150 (stripHtml (l.description.getD "")) ∧
      strLen (generateListingDescription l) ≤ 150) ∧
    (¬ (truthyS l.description = true ∧ strLen (l.description.getD "") > 10) →
      generateListingDescription l =
        "Discover this exquisite " ++ getOr l.tier1_category "precious metal" ++
          " item. Quality guaranteed." ∧
      generateListingDescription l ≠ "") := by
  constructor
  · intro h
    have heq : generateListingDescription l = clipTo 150 (stripHtml (l.description.getD "")) := by
      unfold generateListingDescription
      rw [if_pos h]
    exact ⟨heq, heq ▸ strLen_clipTo (by omega) _⟩
  · intro h
    have heq : generateListingDescription l =
        "Discover this exquisite " ++ getOr l.tier1_category "precious metal" ++
          " item. Quality guaranteed." := by
      unfold generateListingDescription
      rw [if_neg h]
    refine ⟨heq, ?_⟩
    rw [heq]
    intro habs
    have hlen := congrArg strLen habs
    rw [strLen_append, strLen_append] at hlen
    have h1 : strLen "Discover this exquisite " = 24 := by decide
    have h2 : strLen ("" : String) = 0 := by decide
    omega

/-- Claim C10 witness theorem. -/
theorem claim_C10_witness :
    (truthyS (some "Lovely <b>gold</b> coin") = true ∧
      strLen ("Lovely <b>gold</b> coin" : String) > 10) ∧
    generateListingDescription { description := some "Lovely <b>gold</b> coin" } =
      clipTo 150 (stripHtml "Lovely <b>gold</b> coin") ∧
    generateListingDescription {} ≠ "" :=
  ⟨⟨by decide, by decide⟩,
   ((claim_C10_webhook_description { description := some "Lovely <b>gold</b> coin" }).1
     ⟨by decide, by decide⟩).1,
   ((claim_C10_webhook_description {}).2 (by decide)).2⟩

/-- Claim C1 counterexample: the spec's scenario payload with lowercase type
"insert" (and status "draft") is rejected by the case-sensitive type check
before the status check, so the skip reason is the INSERT-events message
and does not contain "not active". -/
def c1Body : WebhookBody :=
  { ttype := some "insert", table := some "listings"
    record := some { id := some "x", title := some "T", user_id := some "u"
                     status := some "draft" } }

/-- Claim C1 counterexample theorem. -/
theorem claim_C1_counterexample :
    (webhookPOST none none false 0 c1Body).1.status = 200 ∧
    (webhookPOST none none false 0 c1Body).1.message = some "Webhook skipped" ∧
    (webhookPOST none none false 0 c1Body).1.reason =
      some "Invalid webhook type - only INSERT events are supported" ∧
    strIncludes "Invalid webhook type - only INSERT events are supported" "not active" = false :=
  ⟨by decide, by decide, by decide, by decide⟩

/-- Claim C1 (amended): for every webhook POST whose body has type exactly
"INSERT" (the validator compares case-sensitively), table "listings", and a
record with id, title, user_id present and any status other than "active",
the handler responds 200 with success true, message "Webhook skipped" and a
reason containing "not active", performing no external calls. -/
theorem claim_C1_inactive_skip (appUrl : Option String) (pd : Option SellerProfile)
    (pe : Bool) (now : Nat) (body : WebhookBody) (rec : Listing)
    (ht : body.ttype = some "INSERT") (htab : body.table = some "listings")
    (hr : body.record = some rec)
    (hid : truthyS rec.id = true) (htitle : truthyS rec.title = true)
    (huid : truthyS rec.user_id = true)
    (hs : rec.status ≠ some "active") :
    (webhookPOST appUrl pd pe now body).1.status = 200 ∧
    (webhookPOST appUrl pd pe now body).1.success = some true ∧
    (webhookPOST appUrl pd pe now body).1.message = some "Webhook skipped" ∧
    (∃ m, (webhookPOST appUrl pd pe now body).1.reason = some m ∧
      strIncludes m "not active" = true) ∧
    (webhookPOST appUrl pd pe now body).2 = 0 := by
  have hinc : strIncludes (("Listing status '" ++ jsToStr rec.status) ++
      "' not active - skipping video generation") "not active" = true :=
    strIncludes_append_right _ _ _ (by decide)
  have hv : validateWebhookPayload body = .error ("Listing status '" ++ jsToStr rec.status ++
      "' not active - skipping video generation") := by
    unfold validateWebhookPayload
    rw [ht, htab, hr]
    rw [if_neg (by decide), if_neg (by decide)]
    dsimp only
    rw [if_pos hs]
  have hpost : webhookPOST appUrl pd pe now body =
      (webhookCatch ("Listing status '" ++ jsToStr rec.status ++
        "' not active - skipping video generation"), 0) := by
    unfold webhookPOST
    rw [hv]
  rw [hpost]
  have hcond : (strIncludes (("Listing status '" ++ jsToStr rec.status) ++
      "' not active - skipping video generation") "not active" ||
      strIncludes (("Listing status '" ++ jsToStr rec.status) ++
        "' not active - skipping video generation") "only INSERT events" ||
      strIncludes (("Listing status '" ++ jsToStr rec.status) ++
        "' not active - skipping video generation") "only listings table") = true := by
    rw [hinc]; rfl
  have hcatch : webhookCatch (("Listing status '" ++ jsToStr rec.status) ++
      "' not active - skipping video generation") =
      { status := 200, success := some true, message := some "Webhook skipped"
        reason := some (("Listing status '" ++ jsToStr rec.status) ++
          "' not active - skipping video generation") } := by
    unfold webhookCatch
    rw [if_pos (by rw [hcond])]
  refine ⟨?_, ?_, ?_, ?_, rfl⟩
  · rw [hcatch]
  · rw [hcatch]
  · rw [hcatch]
  · exact ⟨_, by rw [hcatch], hinc⟩

/-- Claim C1 witness body: the amended scenario with type "INSERT". -/
def c1BodyUpper : WebhookBody :=
  { ttype := some "INSERT", table := some "listings"
    record := some { id := some "x", title := some "T", user_id := some "u"
                     status := some "draft" } }

/-- Claim C1 witness theorem. -/
theorem claim_C1_witness :
    (webhookPOST none none false 0 c1BodyUpper).1.status = 200 ∧
    (webhookPOST none none false 0 c1BodyUpper).1.success = some true ∧
    (webhookPOST none none false 0 c1BodyUpper).1.message = some "Webhook skipped" ∧
    (∃ m, (webhookPOST none none false 0 c1BodyUpper).1.reason = some m ∧
      strIncludes m "not active" = true) ∧
    (webhookPOST none none false 0 c1BodyUpper).2 = 0 :=
  claim_C1_inactive_skip none none false 0 c1BodyUpper
    { id := some "x", title := some "T", user_id := some "u", status := some "draft" }
    rfl rfl rfl (by decide) (by decide) (by decide) (by decide)

/-- Claim C3 counterexample request: inline listing data. -/
def c3Req : RenderReq :=
  { method := "POST", listingData := some { id := some "L1", title := some "Coin" } }

/-- Claim C3 counterexample environment: the storage upload fails. -/
def c3Env : RenderEnv := { uploadError := some "bucket not found", publicUrl := "u" }

/-- Claim C3 counterexample theorem: when the storage upload fails, the
thrown error skips the unlink call entirely — the temporary file deletion
is attempted zero times, not once. -/
theorem claim_C3_counterexample :
    (renderHandler c3Req c3Env).status = 500 ∧
    (renderHandler c3Req c3Env).unlinkCount = 0 ∧
    (renderHandler c3Req c3Env).error = some "Upload failed: bucket not found" :=
  ⟨by decide, by decide, by decide⟩

/-- Claim C3 (amended): for every render job that reaches the publish step
(method POST, listing resolved, bundling/composition/rendering succeeded),
deletion of the local temporary file is attempted exactly once when the
storage upload succeeds — including when the listing-record update fails,
which is only logged — and zero times when the storage upload fails, whose
thrown error bypasses the cleanup. -/
theorem claim_C3_cleanup (req : RenderReq) (env : RenderEnv)
    (hm : req.method = "POST")
    (hlist : req.listingData.isSome ∨
      (req.listingData = none ∧ truthyS req.listingId = true ∧
        env.fetchError = none ∧ env.fetchData.isSome))
    (hb : env.bundleError = none) (hc : env.composeError = none)
    (hr : env.renderError = none) :
    (renderHandler req env).unlinkCount = if env.uploadError.isSome then 0 else 1 := by
  rcases hlist with hdata | ⟨hdn, hid, hferr, hfdata⟩
  · obtain ⟨d, hd⟩ := Option.isSome_iff_exists.mp hdata
    cases hu : env.uploadError <;>
      simp [renderHandler, renderPipeline, hm, hd, hb, hc, hr, hu]
  · obtain ⟨d, hd⟩ := Option.isSome_iff_exists.mp hfdata
    cases hu : env.uploadError <;>
      simp [renderHandler, renderPipeline, hm, hdn, hid, hferr, hd, hb, hc, hr, hu]

/-- Claim C3 witness request: inline listing data. -/
def c3WReq : RenderReq := { method := "POST", listingData := some { id := some "L2" } }

/-- Claim C3 witness environment: upload succeeds, the listing-record
update fails (logged only). -/
def c3WEnv : RenderEnv := { uploadError := none, updateError := some "row lock", publicUrl := "u" }

/-- Claim C3 witness theorem. -/
theorem claim_C3_witness :
    (renderHandler c3WReq c3WEnv).unlinkCount =
      if c3WEnv.uploadError.isSome then 0 else 1 :=
  claim_C3_cleanup c3WReq c3WEnv rfl (Or.inl (by decide)) rfl rfl rfl

/-- Claim C4 counterexample: fetching listing "abc" fails; the 500 error
message carries the store's error text and does not contain the listing id. -/
def c4Req : RenderReq := { method := "POST", listingId := some "abc" }

/-- Claim C4 counterexample environment: the store lookup errors. -/
def c4Env : RenderEnv := { fetchError := some "Row not found", elapsed := "0.10" }

/-- Claim C4 counterexample theorem. -/
theorem claim_C4_counterexample :
    (renderHandler c4Req c4Env).status = 500 ∧
    (renderHandler c4Req c4Env).error = some "Failed to fetch listing: Row not found" ∧
    strIncludes "Failed to fetch listing: Row not found" "abc" = false :=
  ⟨by decide, by decide, by decide⟩

/-- Claim C4 (amended): for every POST carrying only a listingId for which
the store lookup fails (an error, or no row), the response is 500 with
success false, the error message "Failed to fetch listing: " followed by
the store's error message (or "undefined" when the store reported none) —
not the listing id — and the elapsed time. -/
theorem claim_C4_fetch_failure (req : RenderReq) (env : RenderEnv)
    (hm : req.method = "POST") (hid : truthyS req.listingId = true)
    (hdata : req.listingData = none)
    (hf : env.fetchError.isSome ∨ env.fetchData = none) :
    (renderHandler req env).status = 500 ∧
    (renderHandler req env).success = some false ∧
    (renderHandler req env).error =
      some ("Failed to fetch listing: " ++ env.fetchError.getD "undefined") ∧
    (renderHandler req env).renderTime = some env.elapsed := by
  have hf' : env.fetchError.isSome ∨ env.fetchData.isNone := by
    rcases hf with h | h
    · exact Or.inl h
    · exact Or.inr (by simp [h])
  unfold renderHandler renderPipeline
  simp only [hm, hid, hdata]
  rw [if_neg (by simp), if_neg (by simp)]
  rw [if_pos (by simp), if_pos hf']
  exact ⟨rfl, rfl, rfl, rfl⟩

/-- Claim C4 witness environment: the store returns neither a row nor an
error object, so the interpolated message ends in "undefined". -/
def c4WEnv : RenderEnv := { fetchError := none, fetchData := none, elapsed := "0.05" }

/-- Claim C4 witness theorem. -/
theorem claim_C4_witness :
    (renderHandler c4Req c4WEnv).status = 500 ∧
    (renderHandler c4Req c4WEnv).success = some false ∧
    (renderHandler c4Req c4WEnv).error =
      some ("Failed to fetch listing: " ++ c4WEnv.fetchError.getD "undefined") ∧
    (renderHandler c4Req c4WEnv).renderTime = some c4WEnv.elapsed :=
  claim_C4_fetch_failure c4Req c4WEnv rfl (by decide) rfl (Or.inr rfl)

/-- Claim C6 counterexample: a present numeric weight of 0 is JS-falsy, so
the bag's weight field is absent instead of "0 oz". -/
theorem claim_C6_counterexample :
    (renderVideoInputProps { weight := some 0 } {} "d").specifications.weight = none ∧
    (webhookVideoData none { weight := some 0 } {}).specifications.weight = none ∧
    (renderVideoInputProps { weight := some 0 } {} "d").specifications.weight ≠ some "0 oz" :=
  ⟨by decide, by decide, by decide⟩

/-- Claim C6 (amended): in the video input bag of either entry point, the
specifications.weight field equals "<value> oz" when a nonzero numeric
weight is present (weight = 1 yields "1 oz"), and is fully absent when the
weight is absent or zero (both are JS-falsy). -/
theorem claim_C6_weight_formatting (l : Listing) (s : SellerProfile) (d : String)
    (appUrl : Option String) :
    (∀ w, l.weight = some w → w ≠ 0 →
      (renderVideoInputProps l s d).specifications.weight = some (toString w ++ " oz") ∧
      (webhookVideoData appUrl l s).specifications.weight = some (toString w ++ " oz")) ∧
    ((l.weight = none ∨ l.weight = some 0) →
      (renderVideoInputProps l s d).specifications.weight = none ∧
      (webhookVideoData appUrl l s).specifications.weight = none) := by
  constructor
  · intro w hw hw0
    simp [renderVideoInputProps, webhookVideoData, assembleSpecs, formatWeight, hw, hw0]
  · rintro (h | h) <;>
      simp [renderVideoInputProps, webhookVideoData, assembleSpecs, formatWeight, h]

/-- Claim C6 witness theorem: weight 1 yields "1 oz" in both bags. -/
theorem claim_C6_witness :
    ({ weight := some 1 } : Listing).weight = some 1 ∧ (1 : Nat) ≠ 0 ∧
    (renderVideoInputProps { weight := some 1 } {} "d").specifications.weight =
      some (toString (1 : Nat) ++ " oz") ∧
    (webhookVideoData none { weight := some 1 } {}).specifications.weight =
      some (toString (1 : Nat) ++ " oz") :=
  ⟨rfl, by decide,
   ((claim_C6_weight_formatting { weight := some 1 } {} "d" none).1 1 rfl (by decide)).1,
   ((claim_C6_weight_formatting { weight := some 1 } {} "d" none).1 1 rfl (by decide)).2⟩

/-- Claim C7 counterexample: with the application base URL configured as
"https://example.com", the webhook bag resolves the logo through it but the
render endpoint's bag still carries the fixed absolute fallback URL. -/
theorem claim_C7_counterexample :
    (webhookVideoData (some "https://example.com") {} {}).logoUrl =
      "https://example.com/peermetals.png" ∧
    (renderVideoInputProps {} {} "d").logoUrl = "https://peermetals.com/peermetals.png" ∧
    (renderVideoInputProps {} {} "d").logoUrl ≠ "https://example.com/peermetals.png" :=
  ⟨by decide, by decide, by decide⟩

/-- Claim C7 (amended): the webhook entry point's bag resolves the logo URL
as configured-base-URL ++ "/peermetals.png" when the base URL is configured
(non-empty) and as the fixed absolute fallback otherwise; the render
endpoint's bag always carries the fixed absolute fallback URL, ignoring the
configuration. -/
theorem claim_C7_logo_resolution (l : Listing) (s : SellerProfile) (d : String)
    (appUrl : Option String) :
    (renderVideoInputProps l s d).logoUrl = "https://peermetals.com/peermetals.png" ∧
    (∀ u, appUrl = some u → u ≠ "" →
      (webhookVideoData appUrl l s).logoUrl = u ++ "/peermetals.png") ∧
    (truthyS appUrl = false →
      (webhookVideoData appUrl l s).logoUrl = "https://peermetals.com/peermetals.png") := by
  refine ⟨rfl, ?_, ?_⟩
  · intro u hu hne
    simp [webhookVideoData, logoUrlFromEnv, truthyS, hu, bne_iff_ne, hne]
  · intro h
    simp [webhookVideoData, logoUrlFromEnv, h]

/-- Claim C7 witness theorem. -/
theorem claim_C7_witness :
    (some "https://example.com" : Option String) = some "https://example.com" ∧
    ("https://example.com" : String) ≠ "" ∧
    (webhookVideoData (some "https://example.com") {} {}).logoUrl =
      "https://example.com/peermetals.png" ∧
    (renderVideoInputProps {} {} "d").logoUrl = "https://peermetals.com/peermetals.png" :=
  ⟨rfl, by decide,
   (claim_C7_logo_resolution {} {} "d" (some "https://example.com")).2.1
     "https://example.com" rfl (by decide),
   (claim_C7_logo_resolution {} {} "d" (some "https://example.com")).1⟩

/-- Successful pipeline results always carry status 200 and the elapsed
time (the only `.ok` constructor site of `renderPipeline`). -/
theorem renderPipeline_ok (req : RenderReq) (env : RenderEnv) (r : RenderResult)
    (h : renderPipeline req env = .ok r) :
    r.status = 200 ∧ r.renderTime = some env.elapsed := by
  unfold renderPipeline at h
  repeat' split at h
  all_goals try simp_all
  all_goals (cases h; exact ⟨rfl, rfl⟩)

/-- Claim C8 counterexample: the 405 method-not-allowed and the 400
missing-parameter failure responses carry no elapsed time. -/
theorem claim_C8_counterexample :
    (renderHandler { method := "GET" } {}).status = 405 ∧
    (renderHandler { method := "GET" } {}).renderTime = none ∧
    (renderHandler { method := "POST" } {}).status = 400 ∧
    (renderHandler { method := "POST" } {}).renderTime = none :=
  ⟨by decide, by decide, by decide, by decide⟩

/-- Claim C8 (amended): pipeline-error responses (the 500 catch clause)
include a human-readable message and the elapsed time; the 405
method-not-allowed and 400 missing-parameter early responses include a
human-readable message but no elapsed time. -/
theorem claim_C8_failure_responses (req : RenderReq) (env : RenderEnv) :
    ((renderHandler req env).status = 500 →
      (renderHandler req env).error.isSome = true ∧
      (renderHandler req env).renderTime = some env.elapsed) ∧
    (req.method ≠ "POST" →
      (renderHandler req env).status = 405 ∧
      (renderHandler req env).error = some "Method not allowed" ∧
      (renderHandler req env).renderTime = none) ∧
    (req.method = "POST" → truthyS req.listingId = false → req.listingData = none →
      (renderHandler req env).status = 400 ∧
      (renderHandler req env).error =
        some "Missing required parameter: listingId or listingData" ∧
      (renderHandler req env).renderTime = none) := by
  refine ⟨?_, ?_, ?_⟩
  · unfold renderHandler
    split
    · intro h; exact absurd h (by decide)
    · split
      · intro h; exact absurd h (by decide)
      · split
        · rename_i r hp
          intro h
          have := renderPipeline_ok _ _ r hp
          rw [this.1] at h
          exact absurd h (by decide)
        · intro _
          exact ⟨rfl, rfl⟩
  · intro hm
    unfold renderHandler
    rw [if_pos hm]
    exact ⟨rfl, rfl, rfl⟩
  · intro hm hid hdata
    unfold renderHandler
    rw [if_neg (by simp [hm]), if_pos (by simp [hid, hdata])]
    exact ⟨rfl, rfl, rfl⟩

/-- Claim C8 witness theorem. -/
theorem claim_C8_witness :
    (("POST" : String) = "POST") ∧
    truthyS (none : Option String) = false ∧
    (renderHandler { method := "POST" } { elapsed := "1.00" }).status = 400 ∧
    (renderHandler { method := "POST" } { elapsed := "1.00" }).error =
      some "Missing required parameter: listingId or listingData" ∧
    (renderHandler { method := "POST" } { elapsed := "1.00" }).renderTime = none :=
  ⟨rfl, rfl,
   ((claim_C8_failure_responses { method := "POST" } { elapsed := "1.00" }).2.2
     rfl rfl rfl).1,
   ((claim_C8_failure_responses { method := "POST" } { elapsed := "1.00" }).2.2
     rfl rfl rfl).2.1,
   ((claim_C8_failure_responses { method := "POST" } { elapsed := "1.00" }).2.2
     rfl rfl rfl).2.2⟩
